import Mathlib

/-!
Shallow embedding of the request-validation, error-taxonomy and
response-formatting layer of the Flask application in src/app.py.

Uploaded file contents are modelled as byte lists, probabilities as
rationals, and the fallible external predictor (the
`predict_and_format_result` import) as a function returning
`Except String (String × ℚ)`: a raised exception with message `e`
becomes `.error e`, a normal return of a pair becomes `.ok`.
-/

namespace App

/-- Raw content of an uploaded file, as a byte sequence. -/
abbrev Bytes := List Nat

/-- The value behind `request.files.get("image")` when present: a
Werkzeug `FileStorage` with a filename and readable content. -/
structure FileStorage where
  filename : String
  content : Bytes
deriving DecidableEq

/-- The part of an HTTP request the handlers in app.py observe: the
optional `image` file field and the byte length of the request body. -/
structure Request where
  files : Option FileStorage
  contentLength : Nat
deriving DecidableEq

/-- Werkzeug `FileStorage` truthiness: `bool(self.filename)`, so a file
field with an empty filename is falsy, like a missing field. -/
def fileTruthy : Option FileStorage → Bool
  | none => false
  | some f => decide (f.filename ≠ "")

/-- Constant `ALLOWED_EXTENSIONS = set of png, jpg, jpeg` (app.py line 11). -/
def ALLOWED_EXTENSIONS : List String := ["png", "jpg", "jpeg"]

/-- Constant `MAX_CONTENT_LENGTH = 16 * 1024 * 1024` (app.py line 12). -/
def MAX_CONTENT_LENGTH : Nat := 16 * 1024 * 1024

/-- Python method `str.lower()` restricted to the ASCII range, which is all the
comparison against the allowed extensions can distinguish. -/
def pyLower (s : String) : String := ⟨s.data.map Char.toLower⟩

/-- The characters after the last `.` of `s`: for a string containing a
dot this equals Python `s.rsplit(".", 1)[1]`. -/
def afterLastDot (s : String) : String :=
  ⟨(s.data.reverse.takeWhile (fun c => c ≠ '.')).reverse⟩

/-- Function `allowed_file` (app.py lines 47-49): the filename contains a `.` and
the lowercased suffix after the last `.` is an allowed extension. -/
def allowed_file (filename : String) : Bool :=
  filename.data.contains '.' && ALLOWED_EXTENSIONS.contains (pyLower (afterLastDot filename))

/-- A JSON body produced by the handlers in app.py. -/
inductive Json where
  | errBody (error : String)
  | errDetails (error details : String)
  | classified (cls : String) (probability : ℚ)
deriving DecidableEq

/-- A JSON response: HTTP status code and body. -/
structure ApiResponse where
  status : Nat
  body : Json
deriving DecidableEq

/-- A Werkzeug `HTTPException` as the error handler sees it: a status
code and a description string. -/
structure HTTPException where
  code : Nat
  description : String
deriving DecidableEq

/-- Handler `handle_http_exception` (app.py lines 51-57): a 404 maps to the fixed
body `error: Not Found`; any other recognized HTTP failure keeps its code
and description. -/
def handle_http_exception (e : HTTPException) : ApiResponse :=
  if e.code = 404 then ⟨404, .errBody "Not Found"⟩
  else ⟨e.code, .errBody e.description⟩

/-- Handler `handle_generic_exception` (app.py lines 59-63). -/
def handle_generic_exception (msg : String) : ApiResponse :=
  ⟨500, .errDetails "An unexpected error occurred" msg⟩

/-- The external predictor as the handlers consume it: either a raised
exception message or a `(result, probability)` pair. -/
abbrev Predictor := Bytes → Except String (String × ℚ)

/-- Handler `api_predict` (app.py lines 97-118), as a function of the predictor
it calls and the request. -/
def api_predict (predict : Predictor) (req : Request) : ApiResponse :=
  match req.files with
  | none => ⟨400, .errBody "No file uploaded. Please upload an image."⟩
  | some f =>
    if f.filename = "" then ⟨400, .errBody "No file uploaded. Please upload an image."⟩
    else if allowed_file f.filename then
      match predict f.content with
      | .ok (result, probability) =>
        if result = "Anomalous" then
          ⟨400, .errBody "Image is anomalous and cannot be classified."⟩
        else ⟨200, .classified result probability⟩
      | .error e => ⟨500, .errBody ("Prediction error: " ++ e)⟩
    else ⟨400, .errBody "Invalid file type. Please upload a valid image."⟩

/-- The keyword arguments `index` passes to `render_template`. -/
structure PageContext where
  result : Option (String × ℚ)
  image : Option String
  error : Option String
deriving DecidableEq

/-- A page-route response: HTTP status and the render context. -/
structure PageResponse where
  status : Nat
  context : PageContext
deriving DecidableEq

/-- HTTP method of a request to the page route. -/
inductive Method where
  | get
  | post
deriving DecidableEq

/-- Handler `index` (app.py lines 65-95), as a function of the filename
sanitizer (`secure_filename`), the predictor, the method and the
request. Every `render_template` call returns status 200. -/
def index (sanitize : String → String) (predict : Predictor)
    (method : Method) (req : Request) : PageResponse :=
  match method with
  | .get => ⟨200, ⟨none, none, none⟩⟩
  | .post =>
    match req.files with
    | none => ⟨200, ⟨none, none, some "No file uploaded. Please upload an image."⟩⟩
    | some f =>
      if f.filename = "" then
        ⟨200, ⟨none, none, some "No file uploaded. Please upload an image."⟩⟩
      else if allowed_file f.filename then
        match predict f.content with
        | .ok (result, probability) =>
          ⟨200, ⟨some (result, probability), some (sanitize f.filename), none⟩⟩
        | .error e => ⟨200, ⟨none, none, some ("Prediction error: " ++ e)⟩⟩
      else ⟨200, ⟨none, none, some "Invalid file type. Please upload a valid image."⟩⟩

/-- Modelled from the spec: `predict_and_format_result` is imported from
the repository module `utils`, whose source is not under src/. Per the
spec it is the ClassifierAdapter: it invokes the external classifier
once, and a probability outside the range 0 to 1 "is treated as a
ClassifierError", that is, it fails like a raised exception instead of
returning the out-of-range pair. -/
def predict_and_format_result (rawClassifier : Predictor) : Predictor :=
  fun payload =>
    match rawClassifier payload with
    | .ok (label, p) =>
      if 0 ≤ p ∧ p ≤ 1 then .ok (label, p)
      else .error ("Invalid probability " ++ toString p ++ " outside the range 0 to 1")
    | .error e => .error e

/-- Handler `api_predict` instrumented with a flag recording whether the
predictor was invoked while producing the response. -/
def api_predictT (predict : Predictor) (req : Request) : ApiResponse × Bool :=
  match req.files with
  | none => (⟨400, .errBody "No file uploaded. Please upload an image."⟩, false)
  | some f =>
    if f.filename = "" then
      (⟨400, .errBody "No file uploaded. Please upload an image."⟩, false)
    else if allowed_file f.filename then
      (match predict f.content with
       | .ok (result, probability) =>
         if result = "Anomalous" then
           ⟨400, .errBody "Image is anomalous and cannot be classified."⟩
         else ⟨200, .classified result probability⟩
       | .error e => ⟨500, .errBody ("Prediction error: " ++ e)⟩, true)
    else (⟨400, .errBody "Invalid file type. Please upload a valid image."⟩, false)

/-- Werkzeug description of the 413 RequestEntityTooLarge failure raised
by the `MAX_CONTENT_LENGTH` configuration (app.py line 16). -/
def TOO_LARGE_DESCRIPTION : String :=
  "The data value transmitted exceeds the capacity limit."

/-- The web layer in front of `api_predict`: a request whose body
exceeds `MAX_CONTENT_LENGTH` raises RequestEntityTooLarge before the
upload is buffered, which `handle_http_exception` turns into a 413 JSON
response; the handler, and hence the predictor, never runs. -/
def dispatch_api (predict : Predictor) (req : Request) : ApiResponse × Bool :=
  if MAX_CONTENT_LENGTH < req.contentLength then
    (handle_http_exception ⟨413, TOO_LARGE_DESCRIPTION⟩, false)
  else api_predictT predict req

/-- The instrumented handler computes the same response as `api_predict`. -/
theorem api_predictT_fst (predict : Predictor) (req : Request) :
    (api_predictT predict req).1 = api_predict predict req := by
  unfold api_predictT api_predict
  cases req.files with
  | none => rfl
  | some f =>
    by_cases h : f.filename = ""
    · simp [h]
    · by_cases ha : allowed_file f.filename <;> simp [h, ha]

/-- Auxiliary: `takeWhile` of a list all of whose elements satisfy `p`,
followed by an element refuting `p`, keeps exactly the first part. -/
theorem takeWhile_append_cons (p : Char → Bool) (l₁ : List Char) (x : Char)
    (l₂ : List Char) (h₁ : ∀ y ∈ l₁, p y = true) (hx : p x = false) :
    (l₁ ++ x :: l₂).takeWhile p = l₁ := by
  induction l₁ with
  | nil => simp [List.takeWhile_cons, hx]
  | cons c cs ih =>
    have hc : p c = true := h₁ c (by simp)
    simp only [List.cons_append, List.takeWhile_cons, hc, if_true]
    rw [ih (fun y hy => h₁ y (by simp [hy]))]

/-- Auxiliary: on a string of the shape `a ++ "." ++ e` with no dot in
`e`, the suffix after the last dot is exactly `e`. -/
theorem afterLastDot_append (a e : String) (he : ('.' : Char) ∉ e.data) :
    afterLastDot (a ++ "." ++ e) = e := by
  unfold afterLastDot
  have hd : (a ++ "." ++ e).data = a.data ++ '.' :: e.data := by
    simp [String.data_append]
  rw [hd]
  have hrev : (a.data ++ '.' :: e.data).reverse =
      e.data.reverse ++ '.' :: a.data.reverse := by
    simp
  rw [hrev]
  rw [takeWhile_append_cons _ _ _ _
      (fun y hy => by
        simp only [List.mem_reverse] at hy
        simp only [decide_eq_true_eq]
        intro hEq
        exact he (hEq ▸ hy))
      (by simp)]
  cases e with
  | mk d => simp

/-- Auxiliary: a list containing a dot splits around its last dot. -/
theorem exists_last_dot (l : List Char) (h : '.' ∈ l) :
    ∃ a e : List Char, l = a ++ '.' :: e ∧ '.' ∉ e := by
  induction l with
  | nil => cases h
  | cons c cs ih =>
    by_cases hcs : '.' ∈ cs
    · obtain ⟨a, e, hsplit, he⟩ := ih hcs
      exact ⟨c :: a, e, by simp [hsplit], he⟩
    · have hc : c = '.' := by
        rcases List.mem_cons.mp h with h1 | h2
        · exact h1.symm
        · exact absurd h2 hcs
      exact ⟨[], cs, by simp [hc], hcs⟩

/-- Auxiliary: `allowed_file` holds exactly when the filename splits as
`a ++ "." ++ e` with a dot-free suffix `e` whose lowercasing is an
allowed extension. -/
theorem allowed_file_iff (s : String) :
    allowed_file s = true ↔
      ∃ a e : String, s = a ++ "." ++ e ∧ ('.' : Char) ∉ e.data ∧
        pyLower e ∈ ALLOWED_EXTENSIONS := by
  unfold allowed_file
  rw [Bool.and_eq_true]
  constructor
  · rintro ⟨hdot, hmem⟩
    have hmem' : pyLower (afterLastDot s) ∈ ALLOWED_EXTENSIONS := by
      simpa using hmem
    have hdot' : '.' ∈ s.data := by simpa using hdot
    obtain ⟨a, e, hsplit, he⟩ := exists_last_dot s.data hdot'
    have hs : s = (⟨a⟩ : String) ++ "." ++ (⟨e⟩ : String) := by
      apply String.ext
      simp [String.data_append, hsplit]
    refine ⟨⟨a⟩, ⟨e⟩, hs, he, ?_⟩
    have hAfter : afterLastDot s = ⟨e⟩ := by
      rw [hs]
      exact afterLastDot_append ⟨a⟩ ⟨e⟩ he
    rwa [hAfter] at hmem'
  · rintro ⟨a, e, hs, he, hmem⟩
    subst hs
    constructor
    · simp [String.data_append]
    · rw [afterLastDot_append a e he]
      simpa using hmem

/-- Auxiliary: the four possible outputs of the page route on a POST. -/
theorem index_post_cases (sanitize : String → String) (predict : Predictor)
    (req : Request) :
    index sanitize predict .post req =
        ⟨200, ⟨none, none, some "No file uploaded. Please upload an image."⟩⟩ ∨
    index sanitize predict .post req =
        ⟨200, ⟨none, none, some "Invalid file type. Please upload a valid image."⟩⟩ ∨
    (∃ e, index sanitize predict .post req =
        ⟨200, ⟨none, none, some ("Prediction error: " ++ e)⟩⟩) ∨
    (∃ f rp, req.files = some f ∧
      index sanitize predict .post req =
        ⟨200, ⟨some rp, some (sanitize f.filename), none⟩⟩) := by
  cases hf : req.files with
  | none => exact Or.inl (by simp [index, hf])
  | some f =>
    by_cases hn : f.filename = ""
    · exact Or.inl (by simp [index, hf, hn])
    · by_cases ha : allowed_file f.filename
      · cases hp : predict f.content with
        | ok pr =>
          obtain ⟨rr, pp⟩ := pr
          exact Or.inr (Or.inr (Or.inr
            ⟨f, (rr, pp), rfl, by simp [index, hf, hn, ha, hp]⟩))
        | error e =>
          exact Or.inr (Or.inr (Or.inl ⟨e, by simp [index, hf, hn, ha, hp]⟩))
      · exact Or.inr (Or.inl (by simp [index, hf, hn, ha]))

/-- Auxiliary: the success branch of the page route on a POST. -/
theorem index_post_ok (sanitize : String → String) (predict : Predictor)
    (req : Request) (f : FileStorage) (rr : String) (pp : ℚ)
    (hf : req.files = some f) (hn : f.filename ≠ "")
    (ha : allowed_file f.filename = true)
    (hp : predict f.content = Except.ok (rr, pp)) :
    index sanitize predict .post req =
      ⟨200, ⟨some (rr, pp), some (sanitize f.filename), none⟩⟩ := by
  simp [index, hf, hn, ha, hp]

/-- Auxiliary: inverting a 200 classification response of `api_predict`:
the request carried a truthy file with an allowed extension, and the
predictor returned exactly that non-Anomalous pair. -/
theorem api_predict_200_inv (predict : Predictor) (req : Request)
    (l : String) (p : ℚ)
    (h : api_predict predict req = ⟨200, Json.classified l p⟩) :
    ∃ f, req.files = some f ∧ f.filename ≠ "" ∧
      allowed_file f.filename = true ∧
      predict f.content = Except.ok (l, p) ∧ l ≠ "Anomalous" := by
  cases hf : req.files with
  | none => simp [api_predict, hf] at h
  | some f =>
    by_cases hn : f.filename = ""
    · simp [api_predict, hf, hn] at h
    · by_cases ha : allowed_file f.filename
      · cases hp : predict f.content with
        | ok pr =>
          obtain ⟨rr, pp⟩ := pr
          by_cases hA : rr = "Anomalous"
          · simp [api_predict, hf, hn, ha, hp, hA] at h
          · simp [api_predict, hf, hn, ha, hp, hA] at h
            obtain ⟨h1, h2⟩ := h
            refine ⟨f, rfl, hn, ha, ?_, ?_⟩
            · rw [hp, h1, h2]
            · rw [← h1]; exact hA
        | error e => simp [api_predict, hf, hn, ha, hp] at h
      · simp [api_predict, hf, hn, ha] at h

/-- Claim C1: with the spec-modelled ClassifierAdapter in front of the
raw classifier, the API route never returns a 200 body carrying a
probability outside the range 0 to 1; an out-of-range probability is
turned into a classifier error instead. -/
theorem C1_api_no_out_of_range_200 (raw : Predictor) (req : Request)
    (l : String) (p : ℚ)
    (h : api_predict (predict_and_format_result raw) req =
      ⟨200, Json.classified l p⟩) :
    0 ≤ p ∧ p ≤ 1 := by
  obtain ⟨f, hf, hn, ha, hp, hA⟩ := api_predict_200_inv _ _ _ _ h
  unfold predict_and_format_result at hp
  cases hr : raw f.content with
  | ok pr =>
    obtain ⟨label, q⟩ := pr
    rw [hr] at hp
    by_cases hrange : 0 ≤ q ∧ q ≤ 1
    · simp [hrange] at hp
      obtain ⟨h1, h2⟩ := hp
      subst h2
      exact hrange
    · simp [hrange] at hp
  | error e =>
    rw [hr] at hp
    simp at hp

/-- Witness for C1: a concrete in-range classification goes through. -/
theorem C1_api_no_out_of_range_200_witness :
    (0 : ℚ) ≤ 0 ∧ (0 : ℚ) ≤ 1 :=
  C1_api_no_out_of_range_200 (fun _ => Except.ok ("Cat", 0))
    ⟨some ⟨"photo.jpeg", [1, 2, 3]⟩, 10240⟩ "Cat" 0 (by decide)

/-- Claim C2: every POST handled by the page route yields HTTP 200 and a
render context carrying either a result pair or one of the three
human-readable error strings; an Anomalous predictor outcome is rendered
as a normal result, never forced into the error branch. -/
theorem C2_page_policy (sanitize : String → String) (predict : Predictor)
    (req : Request) :
    (index sanitize predict .post req).status = 200 ∧
    ((∃ rp img, (index sanitize predict .post req).context =
        ⟨some rp, some img, none⟩) ∨
      (∃ e, (index sanitize predict .post req).context = ⟨none, none, some e⟩ ∧
        (e = "No file uploaded. Please upload an image." ∨
         e = "Invalid file type. Please upload a valid image." ∨
         ∃ d, e = "Prediction error: " ++ d))) ∧
    (∀ f p, req.files = some f → f.filename ≠ "" →
      allowed_file f.filename = true →
      predict f.content = Except.ok ("Anomalous", p) →
      (index sanitize predict .post req).context =
        ⟨some ("Anomalous", p), some (sanitize f.filename), none⟩) := by
  refine ⟨?_, ?_, ?_⟩
  · rcases index_post_cases sanitize predict req with h | h | ⟨e, h⟩ | ⟨f, rp, hf, h⟩ <;>
      rw [h]
  · rcases index_post_cases sanitize predict req with h | h | ⟨e, h⟩ | ⟨f, rp, hf, h⟩
    · exact Or.inr ⟨_, by rw [h], Or.inl rfl⟩
    · exact Or.inr ⟨_, by rw [h], Or.inr (Or.inl rfl)⟩
    · exact Or.inr ⟨_, by rw [h], Or.inr (Or.inr ⟨e, rfl⟩)⟩
    · exact Or.inl ⟨rp, sanitize f.filename, by rw [h]⟩
  · intro f p hf hn ha hp
    rw [index_post_ok sanitize predict req f "Anomalous" p hf hn ha hp]

/-- Witness for C2 at a concrete Anomalous classification. -/
theorem C2_page_policy_witness :
    (index id (fun _ => Except.ok ("Anomalous", (1 : ℚ) / 2)) .post
        ⟨some ⟨"cat.png", [0]⟩, 3⟩).context =
      ⟨some ("Anomalous", (1 : ℚ) / 2), some "cat.png", none⟩ :=
  (C2_page_policy id (fun _ => Except.ok ("Anomalous", (1 : ℚ) / 2))
      ⟨some ⟨"cat.png", [0]⟩, 3⟩).2.2 ⟨"cat.png", [0]⟩ ((1 : ℚ) / 2) rfl
    (by decide) (by decide) rfl

/-- Claim C3: when the predictor reports the Anomalous outcome on a
validated upload, the API route answers 400 with the fixed message. -/
theorem C3_api_anomalous_400 (predict : Predictor) (req : Request)
    (f : FileStorage) (p : ℚ) (hf : req.files = some f)
    (hn : f.filename ≠ "") (ha : allowed_file f.filename = true)
    (hp : predict f.content = Except.ok ("Anomalous", p)) :
    api_predict predict req =
      ⟨400, Json.errBody "Image is anomalous and cannot be classified."⟩ := by
  simp [api_predict, hf, hn, ha, hp]

/-- Witness for C3 at a concrete Anomalous classification. -/
theorem C3_api_anomalous_400_witness :
    api_predict (fun _ => Except.ok ("Anomalous", (1 : ℚ) / 2))
        ⟨some ⟨"cat.png", [0]⟩, 3⟩ =
      ⟨400, Json.errBody "Image is anomalous and cannot be classified."⟩ :=
  C3_api_anomalous_400 _ _ ⟨"cat.png", [0]⟩ ((1 : ℚ) / 2) rfl (by decide)
    (by decide) rfl

/-- Claim C4: a request whose body exceeds 16 MiB is turned into the 413
JSON response by the web layer and the predictor is never invoked. -/
theorem C4_too_large_never_classified (predict : Predictor) (req : Request)
    (h : MAX_CONTENT_LENGTH < req.contentLength) :
    dispatch_api predict req =
      (⟨413, Json.errBody TOO_LARGE_DESCRIPTION⟩, false) := by
  unfold dispatch_api handle_http_exception
  rw [if_pos h]
  simp

/-- Witness for C4 at a concrete oversized request. -/
theorem C4_too_large_never_classified_witness :
    MAX_CONTENT_LENGTH < 16777217 ∧
    dispatch_api (fun _ => Except.error "unused") ⟨none, 16777217⟩ =
      (⟨413, Json.errBody TOO_LARGE_DESCRIPTION⟩, false) :=
  ⟨by decide, C4_too_large_never_classified _ _ (by decide)⟩

/-- Claim C5: a request without the image file field gets the
no-file-uploaded message on both routes, with status 400 on the API
route and status 200 on the page route. -/
theorem C5_missing_file_message (sanitize : String → String)
    (predict : Predictor) (req : Request) (h : req.files = none) :
    api_predict predict req =
      ⟨400, Json.errBody "No file uploaded. Please upload an image."⟩ ∧
    index sanitize predict .post req =
      ⟨200, ⟨none, none, some "No file uploaded. Please upload an image."⟩⟩ := by
  constructor
  · simp [api_predict, h]
  · simp [index, h]

/-- Witness for C5 at a concrete request with no file field. -/
theorem C5_missing_file_message_witness :
    api_predict (fun _ => Except.error "unused2") ⟨none, 0⟩ =
      ⟨400, Json.errBody "No file uploaded. Please upload an image."⟩ ∧
    index id (fun _ => Except.error "unused2") .post ⟨none, 0⟩ =
      ⟨200, ⟨none, none, some "No file uploaded. Please upload an image."⟩⟩ :=
  C5_missing_file_message id _ _ rfl

/-- Claim C6: `allowed_file` rejects a filename exactly when it has no
dot or the lowercased suffix after its last dot is not an allowed
extension; extensions are matched case-insensitively, as the concrete
examples show. -/
theorem C6_invalid_extension_iff :
    (∀ s : String, allowed_file s = false ↔
      (('.' : Char) ∉ s.data ∨
        ∀ a e : String, s = a ++ "." ++ e → ('.' : Char) ∉ e.data →
          pyLower e ∉ ALLOWED_EXTENSIONS)) ∧
    allowed_file "a.PNG" = true ∧
    allowed_file "b.Jpg" = true ∧
    allowed_file "c.gif" = false ∧
    allowed_file "d.txt" = false ∧
    allowed_file "noextension" = false := by
  refine ⟨?_, by decide, by decide, by decide, by decide, by decide⟩
  intro s
  constructor
  · intro hfalse
    by_cases hdot : ('.' : Char) ∈ s.data
    · right
      intro a e hs he hmem
      have htrue : allowed_file s = true :=
        (allowed_file_iff s).mpr ⟨a, e, hs, he, hmem⟩
      rw [htrue] at hfalse
      exact Bool.noConfusion hfalse
    · exact Or.inl hdot
  · intro hr
    cases hAll : allowed_file s with
    | false => rfl
    | true =>
      obtain ⟨a, e, hs, he, hmem⟩ := (allowed_file_iff s).mp hAll
      rcases hr with hnd | hforall
      · refine absurd ?_ hnd
        rw [hs]
        simp [String.data_append]
      · exact absurd hmem (hforall a e hs he)

/-- Witness for C6: the case-insensitive acceptance of a png suffix. -/
theorem C6_invalid_extension_iff_witness :
    allowed_file "a.PNG" = true :=
  C6_invalid_extension_iff.2.1

/-- Claim C7: an exception raised while classifying a validated upload
makes the API route answer 500 with the prediction-error prefix followed
by the exception message, a structured JSON body rather than a raw
framework error page. -/
theorem C7_prediction_error_500 (predict : Predictor) (req : Request)
    (f : FileStorage) (e : String) (hf : req.files = some f)
    (hn : f.filename ≠ "") (ha : allowed_file f.filename = true)
    (he : predict f.content = Except.error e) :
    api_predict predict req =
      ⟨500, Json.errBody ("Prediction error: " ++ e)⟩ := by
  simp [api_predict, hf, hn, ha, he]

/-- Witness for C7 at a concrete failing predictor. -/
theorem C7_prediction_error_500_witness :
    api_predict (fun _ => Except.error "boom") ⟨some ⟨"cat.png", [0]⟩, 3⟩ =
      ⟨500, Json.errBody ("Prediction error: " ++ "boom")⟩ :=
  C7_prediction_error_500 _ _ ⟨"cat.png", [0]⟩ "boom" rfl (by decide)
    (by decide) rfl

/-- Claim C8: the error boundary maps a recognized HTTP failure to its
own status code and description, except that a 404 always yields the
fixed Not Found body. -/
theorem C8_http_exception_mapping (e : HTTPException) :
    (e.code = 404 →
      handle_http_exception e = ⟨404, Json.errBody "Not Found"⟩) ∧
    (e.code ≠ 404 →
      handle_http_exception e = ⟨e.code, Json.errBody e.description⟩) := by
  constructor
  · intro h
    simp [handle_http_exception, h]
  · intro h
    simp [handle_http_exception, h]

/-- Witness for C8 at a 404 and at a non-404 failure. -/
theorem C8_http_exception_mapping_witness :
    handle_http_exception ⟨404, "route not matched"⟩ =
      ⟨404, Json.errBody "Not Found"⟩ ∧
    handle_http_exception ⟨405, "Method Not Allowed"⟩ =
      ⟨405, Json.errBody "Method Not Allowed"⟩ :=
  ⟨(C8_http_exception_mapping ⟨404, "route not matched"⟩).1 rfl,
   (C8_http_exception_mapping ⟨405, "Method Not Allowed"⟩).2 (by decide)⟩

/-- Claim C9: the API handler is a deterministic function of the image
field and the predictor, so two requests carrying the same image get
identical responses. -/
theorem C9_api_deterministic (predict : Predictor) (r1 r2 : Request)
    (h : r1.files = r2.files) :
    api_predict predict r1 = api_predict predict r2 := by
  unfold api_predict
  rw [h]

/-- Witness for C9: two requests equal on the image field but different
elsewhere. -/
theorem C9_api_deterministic_witness :
    api_predict (fun _ => Except.ok ("Cat", (87 : ℚ) / 100))
        ⟨some ⟨"cat.png", [0]⟩, 5⟩ =
      api_predict (fun _ => Except.ok ("Cat", (87 : ℚ) / 100))
        ⟨some ⟨"cat.png", [0]⟩, 7⟩ :=
  C9_api_deterministic _ _ _ rfl

/-- Claim C10: every render context the page route produces carries at
most one of a result and an error; an error context has no result and no
image name, and a result context has no error. -/
theorem C10_page_context_exclusive (sanitize : String → String)
    (predict : Predictor) (m : Method) (req : Request) :
    ((index sanitize predict m req).context.result = none ∨
      (index sanitize predict m req).context.error = none) ∧
    ((index sanitize predict m req).context.error ≠ none →
      (index sanitize predict m req).context.result = none ∧
      (index sanitize predict m req).context.image = none) ∧
    ((index sanitize predict m req).context.result ≠ none →
      (index sanitize predict m req).context.error = none) := by
  cases m with
  | get => exact ⟨Or.inl rfl, fun h => absurd rfl h, fun _ => rfl⟩
  | post =>
    rcases index_post_cases sanitize predict req with h | h | ⟨e, h⟩ | ⟨f, rp, hf, h⟩
    · rw [h]
      exact ⟨Or.inl rfl, fun _ => ⟨rfl, rfl⟩, fun hr => absurd rfl hr⟩
    · rw [h]
      exact ⟨Or.inl rfl, fun _ => ⟨rfl, rfl⟩, fun hr => absurd rfl hr⟩
    · rw [h]
      exact ⟨Or.inl rfl, fun _ => ⟨rfl, rfl⟩, fun hr => absurd rfl hr⟩
    · rw [h]
      exact ⟨Or.inr rfl, fun he => absurd rfl he, fun _ => rfl⟩

/-- Witness for C10 at a concrete error context and a concrete success
context. -/
theorem C10_page_context_exclusive_witness :
    ((index id (fun _ => Except.error "boom3") .post ⟨none, 0⟩).context.result = none ∨
      (index id (fun _ => Except.error "boom3") .post ⟨none, 0⟩).context.error = none) :=
  (C10_page_context_exclusive id (fun _ => Except.error "boom3") .post ⟨none, 0⟩).1

end App
